import Mathlib

/-!
Shallow embedding of the CIMD local OAuth authorization server
(`index.js`, embedded in the repository README) for verification.

The server is an Express application.  Its pure request-handling logic is
translated here directly:

* JSON values produced by `JSON.parse` are modelled by `JSValue`
  (numbers as `Int`; the claims under study never touch fractional numbers).
* The WHATWG `URL` class used by Node (`new URL`, `url.toString()`,
  `url.searchParams.set`) is a platform library, not repository code, so it
  is abstracted as a record of functions `URLApi`; concrete oracles are
  supplied for witnesses.
* The network `fetch` is abstracted as a function from the fetched URL to a
  `FetchResult`.
* `throw new Error(msg)` / `catch` is modelled with `Except`: each validator
  returns a typed error whose `message` is exactly the string thrown by the
  source.
* The server keeps no mutable store of any kind (the token endpoint compares
  against the fixed literal `"cimd-demo-code"`), so every handler is a pure
  function of the request alone.
-/

/-- A JSON value as produced by `JSON.parse`.  Object fields are kept as an
association list; duplicate keys behave like `JSON.parse` (last wins, see
`getProp`). -/
inductive JSValue where
  | jnull
  | jbool (b : Bool)
  | jnum (n : Int)
  | jstr (s : String)
  | jarr (elems : List JSValue)
  | jobj (fields : List (String × JSValue))
deriving Repr

/-- Property access `obj[key]`: JavaScript objects keep one binding per key;
`JSON.parse` resolves duplicate keys last-wins, which this lookup mirrors. -/
def getProp (fields : List (String × JSValue)) (key : String) : Option JSValue :=
  match fields with
  | [] => none
  | (k, v) :: rest =>
    match getProp rest key with
    | some w => some w
    | none => if k = key then some v else none

/-- JavaScript truthiness of a JSON value. -/
def jsTruthy : JSValue → Bool
  | .jnull => false
  | .jbool b => b
  | .jnum n => n != 0
  | .jstr s => s != ""
  | .jarr _ => true
  | .jobj _ => true

/-- JavaScript strict equality `v === s` between an arbitrary value and a
string: true exactly when `v` is that string. -/
def jsStrictEqStr (v : JSValue) (s : String) : Bool :=
  match v with
  | .jstr t => t == s
  | _ => false

mutual

/-- JavaScript `String(v)` on a JSON value. -/
def jsToString : JSValue → String
  | .jnull => "null"
  | .jbool true => "true"
  | .jbool false => "false"
  | .jnum n => toString n
  | .jstr s => s
  | .jobj _ => "[object Object]"
  | .jarr elems => jsArrJoin elems

/-- `Array.prototype.toString`: elements joined by commas, `null` rendered
as the empty string. -/
def jsArrJoin : List JSValue → String
  | [] => ""
  | [.jnull] => ""
  | [v] => jsToString v
  | .jnull :: rest => "," ++ jsArrJoin rest
  | v :: rest => jsToString v ++ "," ++ jsArrJoin rest

end

/-- Helper for `jsSplit`: split a character list on a separator character,
keeping empty groups, structurally recursive so that concrete instances
evaluate inside the kernel. -/
def splitCharAux (sep : Char) : List Char → List (List Char)
  | [] => [[]]
  | c :: rest =>
    match splitCharAux sep rest with
    | [] => [[]]
    | group :: groups =>
      if c = sep then [] :: group :: groups
      else (c :: group) :: groups

/-- JavaScript `s.split(sep)` for a one-character separator (the source only
splits on "/"): every occurrence separates, empty pieces are kept, and the
empty string yields `[""]`. -/
def jsSplit (s : String) (sep : Char) : List String :=
  (splitCharAux sep s.toList).map (fun cs => String.mk cs)

/-- JavaScript `s.startsWith(pre)`. -/
def strHasPre (pre s : String) : Bool := pre.toList.isPrefixOf s.toList

/-- The components of a parsed WHATWG URL that the server reads.  As in the
WHATWG API, `protocol` includes the trailing colon, absent components are
empty strings. -/
structure URLRecord where
  protocol : String
  username : String
  password : String
  host : String
  pathname : String
  search : String
  hash : String
deriving DecidableEq, Repr

/-- The slice of Node's WHATWG `URL` API the server uses.  `parse` returns
`none` when `new URL(s)` would throw, `render` is `url.toString()`, and
`setParam` is `url.searchParams.set` followed by reading the updated URL. -/
structure URLApi where
  parse : String → Option URLRecord
  render : URLRecord → String
  setParam : URLRecord → String → String → URLRecord

/-- Failure reasons of `validateClientIdUrl`, one per `throw` site. -/
inductive ClientIdError where
  | malformedURL
  | schemeNotHttps
  | missingPath
  | dotSegment
  | hasFragment
  | hasUserinfo
deriving DecidableEq, Repr

/-- The exact message string thrown by the source for each reason. -/
def ClientIdError.message : ClientIdError → String
  | .malformedURL => "invalid_client_id: client_id must be a valid URL"
  | .schemeNotHttps => "invalid_client_id: client_id URL MUST use https scheme"
  | .missingPath => "invalid_client_id: client_id URL MUST contain a path component"
  | .dotSegment =>
      "invalid_client_id: client_id URL MUST NOT contain single-dot or double-dot path segments"
  | .hasFragment => "invalid_client_id: client_id URL MUST NOT contain a fragment component"
  | .hasUserinfo =>
      "invalid_client_id: client_id URL MUST NOT contain a username or password component"

/-- `validateClientIdUrl(raw)` from the source: parse, then check scheme,
path presence, dot segments, fragment, userinfo, in that order; on success
return `url.toString()`.  JavaScript string truthiness (`!url.pathname`,
`url.hash`, `url.username || url.password`) is non-emptiness. -/
def validateClientIdUrl (api : URLApi) (raw : String) : Except ClientIdError String :=
  match api.parse raw with
  | none => .error .malformedURL
  | some url =>
    if url.protocol != "https:" then .error .schemeNotHttps
    else if url.pathname == "" || url.pathname == "/" then .error .missingPath
    else if (jsSplit url.pathname '/').any (fun s => s == "." || s == "..") then
      .error .dotSegment
    else if url.hash != "" then .error .hasFragment
    else if url.username != "" || url.password != "" then .error .hasUserinfo
    else .ok (api.render url)

/-- Failure reasons of `fetchAndValidateClientMetadata`, one per `throw`. -/
inductive MetadataError where
  | fetchFailed
  | invalidJson
  | notAnObject
  | missingClientId
  | clientIdMismatch
  | forbiddenAuthMethod
  | secretPresent
  | secretExpiryPresent
deriving DecidableEq, Repr

/-- The exact message string thrown by the source for each reason.  The two
`token_endpoint_auth_method` throw sites use the same string. -/
def MetadataError.message : MetadataError → String
  | .fetchFailed => "invalid_client: failed to fetch client metadata document"
  | .invalidJson => "invalid_client: client metadata document is not valid JSON"
  | .notAnObject => "invalid_client: client metadata document must be a JSON object"
  | .missingClientId => "invalid_client: client metadata document MUST contain client_id"
  | .clientIdMismatch =>
      "invalid_client: client_id property in metadata document MUST match the document URL"
  | .forbiddenAuthMethod =>
      "invalid_client: token_endpoint_auth_method MUST NOT be a shared secret based method"
  | .secretPresent => "invalid_client: client_secret MUST NOT be present in client metadata"
  | .secretExpiryPresent =>
      "invalid_client: client_secret_expires_at MUST NOT be present in client metadata"

/-- Outcome of the HTTP GET on the client-id URL: `httpError` is a non-2xx
status (`!res.ok`), `badJson` a body `res.json()` fails to parse, `ok` a
parsed JSON body. -/
inductive FetchResult where
  | httpError
  | badJson
  | ok (body : JSValue)

/-- Membership in the source's `forbiddenAuthMethods` set (`Set.has` uses
strict equality, so only string values can match). -/
def isForbiddenAuthMethod (v : JSValue) : Bool :=
  jsStrictEqStr v "client_secret_post" ||
  jsStrictEqStr v "client_secret_basic" ||
  jsStrictEqStr v "client_secret_jwt"

/-- The `if (json.token_endpoint_auth_method)` block of the source as a
predicate on the document fields: the property is present and truthy, and
is either in the forbidden set or `String(v)` starts with
"client_secret_". -/
def forbiddenAuthCheck (fields : List (String × JSValue)) : Bool :=
  match getProp fields "token_endpoint_auth_method" with
  | some m => jsTruthy m &&
      (isForbiddenAuthMethod m || strHasPre "client_secret_" (jsToString m))
  | none => false

/-- `fetchAndValidateClientMetadata(clientIdUrl)` from the source, with the
network response supplied as data.  `typeof json !== "object" || json ===
null || Array.isArray(json)` admits exactly JSON objects.  The checks run in
source order: `client_id` presence (`hasOwnProperty`), `client_id` strict
equality with the document URL, forbidden `token_endpoint_auth_method`
(guarded by truthiness, then set membership, then the `client_secret_`
string test on `String(v)`), `client_secret` presence,
`client_secret_expires_at` presence. -/
def fetchAndValidateClientMetadata (clientIdUrl : String) (response : FetchResult) :
    Except MetadataError JSValue :=
  match response with
  | .httpError => .error .fetchFailed
  | .badJson => .error .invalidJson
  | .ok json =>
    match json with
    | .jobj fields =>
      match getProp fields "client_id" with
      | none => .error .missingClientId
      | some cid =>
        if !jsStrictEqStr cid clientIdUrl then .error .clientIdMismatch
        else if forbiddenAuthCheck fields then .error .forbiddenAuthMethod
        else if (getProp fields "client_secret").isSome then .error .secretPresent
        else if (getProp fields "client_secret_expires_at").isSome then
          .error .secretExpiryPresent
        else .ok (.jobj fields)
    | _ => .error .notAnObject

/-- Failure reasons of `validateRedirectUri`, one per `throw` site. -/
inductive RedirectError where
  | missingRedirectUri
  | missingRegisteredUris
  | noExactMatch
deriving DecidableEq, Repr

/-- The exact message string thrown by the source for each reason. -/
def RedirectError.message : RedirectError → String
  | .missingRedirectUri => "invalid_request: redirect_uri is required"
  | .missingRegisteredUris => "invalid_client: client metadata must include redirect_uris array"
  | .noExactMatch =>
      "invalid_request: redirect_uri MUST exactly match one of the registered redirect_uris"

/-- `validateRedirectUri(requestedRedirectUri, metadata)` from the source.
`redirectUris.find((u) => u === requested)` followed by the `!match`
truthiness test is equivalent to an existence check here: a found element
equals the requested string, which is non-empty past the first guard, hence
truthy.  A `redirect_uris` value that is absent or not an array fails the
`Array.isArray` test. -/
def validateRedirectUri (requested : String) (metadata : JSValue) : Except RedirectError Unit :=
  if requested == "" then .error .missingRedirectUri
  else
    match (match metadata with
           | .jobj fields => getProp fields "redirect_uris"
           | _ => none) with
    | some (.jarr entries) =>
      if entries.length == 0 then .error .missingRegisteredUris
      else if entries.any (fun u => jsStrictEqStr u requested) then .ok ()
      else .error .noExactMatch
    | _ => .error .missingRegisteredUris

/-- The parameter bag `handleAuthorize` destructures, as delivered by
Express from the query string or form body: each field is either absent
(`none`, JavaScript `undefined`) or a string. -/
structure AuthParams where
  client_id : Option String
  redirect_uri : Option String
  response_type : Option String
  state : Option String
deriving DecidableEq, Repr

/-- `String(v)` applied to a possibly-absent parameter: JavaScript renders
`undefined` as the literal string "undefined". -/
def jsParamString : Option String → String
  | none => "undefined"
  | some s => s

/-- JavaScript truthiness of a possibly-absent string parameter: absent and
empty are falsy. -/
def paramTruthy : Option String → Bool
  | none => false
  | some s => s != ""

/-- Observable outcome of `handleAuthorize`: `res.redirect(target)` or the
catch-all `res.status(400).json(\x7berror, error_description\x7d)`. -/
inductive AuthorizeResult where
  | redirectTo (target : String)
  | errorResponse (error : String) (error_description : String)
deriving DecidableEq, Repr

/-- True exactly on the success (redirect) outcome. -/
def isRedirect : AuthorizeResult → Bool
  | .redirectTo _ => true
  | .errorResponse _ _ => false

/-- The fixed authorization code the source issues (`const dummyCode`). -/
def dummyCode : String := "cimd-demo-code"

/-- `handleAuthorize(req, res, params)` from the source, with Node's URL
library (`api`) and the network (`fetchJson`) supplied as capabilities.
The second component counts invocations of the fetch capability.  The
try/catch turns every thrown message into
`\x7berror: "invalid_request", error_description: message\x7d`; `new
URL(String(redirect_uri))` on an unparsable string throws a `TypeError`
whose message is "Invalid URL".  There is no credential check anywhere: on
successful validation the handler immediately redirects with the fixed
dummy code. -/
def handleAuthorize (api : URLApi) (fetchJson : String → FetchResult) (params : AuthParams) :
    AuthorizeResult × Nat :=
  if !paramTruthy params.client_id then
    (.errorResponse "invalid_request" "invalid_request: client_id is required", 0)
  else if !paramTruthy params.response_type then
    (.errorResponse "invalid_request" "invalid_request: response_type is required", 0)
  else if params.response_type != some "code" then
    (.errorResponse "invalid_request" "unsupported_response_type: only response_type=code is supported", 0)
  else
    match validateClientIdUrl api (jsParamString params.client_id) with
    | .error e => (.errorResponse "invalid_request" e.message, 0)
    | .ok clientIdUrl =>
      match fetchAndValidateClientMetadata clientIdUrl (fetchJson clientIdUrl) with
      | .error e => (.errorResponse "invalid_request" e.message, 1)
      | .ok metadata =>
        match validateRedirectUri (jsParamString params.redirect_uri) metadata with
        | .error e => (.errorResponse "invalid_request" e.message, 1)
        | .ok _ =>
          match api.parse (jsParamString params.redirect_uri) with
          | none => (.errorResponse "invalid_request" "Invalid URL", 1)
          | some url =>
            let url1 := api.setParam url "code" dummyCode
            let url2 :=
              if paramTruthy params.state then
                api.setParam url1 "state" (jsParamString params.state)
              else url1
            (.redirectTo (api.render url2), 1)

/-- The body fields the `/token` handler destructures. -/
structure TokenParams where
  grant_type : Option String
  code : Option String
deriving DecidableEq, Repr

/-- Observable outcome of the `/token` handler. -/
inductive TokenResult where
  | issued (access_token : String) (token_type : String) (expires_in : Nat)
  | rejected (error : String) (error_description : String)
deriving DecidableEq, Repr

/-- The fixed access token the source returns. -/
def dummyAccessToken : String := "cimd-demo-access-token"

/-- The `POST /token` handler from the source.  It reads nothing but the
request body: there is no code store, no clock, and no mutation — the
response is a pure function of the two body fields.  The only accepted code
is the fixed literal the authorize handler always issues. -/
def tokenEndpoint (params : TokenParams) : TokenResult :=
  if params.grant_type != some "authorization_code" then
    .rejected "unsupported_grant_type" "Only authorization_code is supported in this demo"
  else if params.code != some "cimd-demo-code" then
    .rejected "invalid_grant" "Invalid or expired authorization code"
  else
    .issued dummyAccessToken "Bearer" 3600

/-- A sequence of token requests handled by the server process.  Because the
source handler touches no shared state, successive requests are handled
independently; mapping the handler over the sequence is the exact behaviour
of the Express app. -/
def tokenRun (requests : List TokenParams) : List TokenResult :=
  requests.map tokenEndpoint

/-- Parsed form of the demo client-id URL "https://ex.test/md.json". -/
def mdUrlRecord : URLRecord :=
  { protocol := "https:", username := "", password := "", host := "ex.test",
    pathname := "/md.json", search := "", hash := "" }

/-- Parsed form of the demo callback URL "http://localhost:4000/callback". -/
def cbUrlRecord : URLRecord :=
  { protocol := "http:", username := "", password := "", host := "localhost:4000",
    pathname := "/callback", search := "", hash := "" }

/-- Serializer of the concrete URL oracle (no userinfo/port cases needed by
the demo records). -/
def demoRender (u : URLRecord) : String :=
  u.protocol ++ "//" ++ u.host ++ u.pathname ++ u.search ++ u.hash

/-- Query-parameter setter of the concrete URL oracle; the demo only ever
adds fresh keys, matching what `searchParams.set` does then. -/
def demoSetParam (u : URLRecord) (k v : String) : URLRecord :=
  { u with search := if u.search = "" then "?" ++ k ++ "=" ++ v else u.search ++ "&" ++ k ++ "=" ++ v }

/-- A concrete URL oracle: parses exactly the two demo URLs, and — like
Node's `new URL` — fails on the schemeless string "undefined". -/
def demoApi : URLApi :=
  { parse := fun s =>
      if s = "https://ex.test/md.json" then some mdUrlRecord
      else if s = "http://localhost:4000/callback" then some cbUrlRecord
      else none,
    render := demoRender,
    setParam := demoSetParam }

/-- A well-formed demo metadata document for "https://ex.test/md.json". -/
def demoMetadata : JSValue :=
  .jobj [("client_id", .jstr "https://ex.test/md.json"),
         ("redirect_uris", .jarr [.jstr "http://localhost:4000/callback"])]

/-- A fetch oracle serving the demo metadata document at every URL. -/
def demoFetch : String → FetchResult := fun _ => .ok demoMetadata

/-- A fully valid authorize request for the demo client. -/
def demoParams : AuthParams :=
  { client_id := some "https://ex.test/md.json",
    redirect_uri := some "http://localhost:4000/callback",
    response_type := some "code",
    state := some "xyz" }

/-- An authorize request identical to the demo one except that it asks for
the implicit flow (`response_type=token`). -/
def implicitFlowParams : AuthParams :=
  { client_id := some "https://ex.test/md.json",
    redirect_uri := some "http://localhost:4000/callback",
    response_type := some "token",
    state := some "xyz" }

/-- Demo metadata whose `token_endpoint_auth_method` is the forbidden
`client_secret_basic`. -/
def forbiddenMethodMetadata : JSValue :=
  .jobj [("client_id", .jstr "https://ex.test/md.json"),
         ("redirect_uris", .jarr [.jstr "http://localhost:4000/callback"]),
         ("token_endpoint_auth_method", .jstr "client_secret_basic")]

/-- A fetch oracle serving `forbiddenMethodMetadata` at every URL. -/
def forbiddenMethodFetch : String → FetchResult := fun _ => .ok forbiddenMethodMetadata

/-- Demo metadata registering the literal string "undefined" as a redirect
URI. -/
def undefinedListedMetadata : JSValue :=
  .jobj [("client_id", .jstr "https://ex.test/md.json"),
         ("redirect_uris", .jarr [.jstr "undefined"])]

/-- A fetch oracle serving `undefinedListedMetadata` at every URL. -/
def undefinedListedFetch : String → FetchResult := fun _ => .ok undefinedListedMetadata

/-- A valid authorize request that omits the `redirect_uri` parameter. -/
def omittedRedirectParams : AuthParams :=
  { client_id := some "https://ex.test/md.json",
    redirect_uri := none,
    response_type := some "code",
    state := none }

/-- The one token request the server accepts. -/
def validRedemptionRequest : TokenParams :=
  { grant_type := some "authorization_code", code := some "cimd-demo-code" }

theorem paramTruthy_code : paramTruthy (some "code") = true := rfl

theorem jsStrictEqStr_iff (v : JSValue) (s : String) : jsStrictEqStr v s = true ↔ v = .jstr s := by
  cases v <;> simp [jsStrictEqStr]

theorem handleAuthorize_no_client_id (api : URLApi) (f : String → FetchResult) (p : AuthParams)
    (h : paramTruthy p.client_id = false) :
    handleAuthorize api f p
      = (.errorResponse "invalid_request" "invalid_request: client_id is required", 0) := by
  simp [handleAuthorize, h]

theorem handleAuthorize_no_response_type (api : URLApi) (f : String → FetchResult) (p : AuthParams)
    (hc : paramTruthy p.client_id = true) (h : paramTruthy p.response_type = false) :
    handleAuthorize api f p
      = (.errorResponse "invalid_request" "invalid_request: response_type is required", 0) := by
  simp [handleAuthorize, hc, h]

theorem handleAuthorize_bad_response_type (api : URLApi) (f : String → FetchResult) (p : AuthParams)
    (hc : paramTruthy p.client_id = true) (hp : paramTruthy p.response_type = true)
    (hne : p.response_type ≠ some "code") :
    handleAuthorize api f p
      = (.errorResponse "invalid_request"
          "unsupported_response_type: only response_type=code is supported", 0) := by
  simp [handleAuthorize, hc, hp, bne_iff_ne, hne]

theorem handleAuthorize_clientId_error (api : URLApi) (f : String → FetchResult) (p : AuthParams)
    (e : ClientIdError)
    (hc : paramTruthy p.client_id = true) (hrt : p.response_type = some "code")
    (hv : validateClientIdUrl api (jsParamString p.client_id) = .error e) :
    handleAuthorize api f p = (.errorResponse "invalid_request" e.message, 0) := by
  simp [handleAuthorize, hc, hrt, hv, paramTruthy_code]

theorem handleAuthorize_metadata_error (api : URLApi) (f : String → FetchResult) (p : AuthParams)
    (url : String) (e : MetadataError)
    (hc : paramTruthy p.client_id = true) (hrt : p.response_type = some "code")
    (hv : validateClientIdUrl api (jsParamString p.client_id) = .ok url)
    (hm : fetchAndValidateClientMetadata url (f url) = .error e) :
    handleAuthorize api f p = (.errorResponse "invalid_request" e.message, 1) := by
  simp [handleAuthorize, hc, hrt, hv, hm, paramTruthy_code]

theorem handleAuthorize_redirect_error (api : URLApi) (f : String → FetchResult) (p : AuthParams)
    (url : String) (metadata : JSValue) (e : RedirectError)
    (hc : paramTruthy p.client_id = true) (hrt : p.response_type = some "code")
    (hv : validateClientIdUrl api (jsParamString p.client_id) = .ok url)
    (hm : fetchAndValidateClientMetadata url (f url) = .ok metadata)
    (hr : validateRedirectUri (jsParamString p.redirect_uri) metadata = .error e) :
    handleAuthorize api f p = (.errorResponse "invalid_request" e.message, 1) := by
  simp [handleAuthorize, hc, hrt, hv, hm, hr, paramTruthy_code]

theorem handleAuthorize_redirect_ok_parse_none (api : URLApi) (f : String → FetchResult)
    (p : AuthParams) (url : String) (metadata : JSValue)
    (hc : paramTruthy p.client_id = true) (hrt : p.response_type = some "code")
    (hv : validateClientIdUrl api (jsParamString p.client_id) = .ok url)
    (hm : fetchAndValidateClientMetadata url (f url) = .ok metadata)
    (hr : validateRedirectUri (jsParamString p.redirect_uri) metadata = .ok ())
    (hparse : api.parse (jsParamString p.redirect_uri) = none) :
    handleAuthorize api f p = (.errorResponse "invalid_request" "Invalid URL", 1) := by
  simp [handleAuthorize, hc, hrt, hv, hm, hr, hparse, paramTruthy_code]

theorem any_strictEq_iff (entries : List JSValue) (s : String) :
    (entries.any (fun u => jsStrictEqStr u s)) = true ↔ JSValue.jstr s ∈ entries := by
  simp [List.any_eq_true, jsStrictEqStr_iff]

theorem validateRedirectUri_empty (m : JSValue) :
    validateRedirectUri "" m = .error .missingRedirectUri := by
  simp [validateRedirectUri]

theorem validateRedirectUri_nonempty (requested : String) (m : JSValue) (hne : requested ≠ "") :
    validateRedirectUri requested m =
      (match (match m with | .jobj fields => getProp fields "redirect_uris" | _ => none) with
       | some (.jarr entries) =>
         if entries.length == 0 then .error .missingRegisteredUris
         else if entries.any (fun u => jsStrictEqStr u requested) then .ok ()
         else .error .noExactMatch
       | _ => .error .missingRegisteredUris) := by
  simp [validateRedirectUri, beq_iff_eq, hne]

theorem validateRedirectUri_error_ne_missing (requested : String) (m : JSValue) (e : RedirectError)
    (hne : requested ≠ "") (h : validateRedirectUri requested m = .error e) :
    e ≠ RedirectError.missingRedirectUri := by
  rw [validateRedirectUri_nonempty requested m hne] at h
  split at h
  · split at h
    · cases h; decide
    · split at h
      · simp_all
      · cases h; decide
  · cases h; decide

theorem redirectError_message_ne_missing (e : RedirectError) (hne : e ≠ .missingRedirectUri) :
    e.message ≠ RedirectError.missingRedirectUri.message := by
  cases e
  · exact absurd rfl hne
  · decide
  · decide

theorem clientIdError_message_ne_missing (e : ClientIdError) :
    e.message ≠ RedirectError.missingRedirectUri.message := by
  cases e <;> decide

theorem metadataError_message_ne_missing (e : MetadataError) :
    e.message ≠ RedirectError.missingRedirectUri.message := by
  cases e <;> decide

theorem handleAuthorize_omitted_redirect_desc (api : URLApi) (f : String → FetchResult)
    (p : AuthParams) (hru : p.redirect_uri = none) :
    (handleAuthorize api f p).1
      ≠ .errorResponse "invalid_request" RedirectError.missingRedirectUri.message := by
  have hstr : jsParamString p.redirect_uri = "undefined" := by rw [hru]; rfl
  unfold handleAuthorize
  split
  · simp [RedirectError.message]
  · split
    · simp [RedirectError.message]
    · split
      · simp [RedirectError.message]
      · split
        · next e _ =>
          intro h
          exact clientIdError_message_ne_missing e (by simpa using h)
        · next url _ =>
          split
          · next e _ =>
            intro h
            exact metadataError_message_ne_missing e (by simpa using h)
          · next metadata _ =>
            split
            · next e heq =>
              intro h
              rw [hstr] at heq
              have he : e ≠ .missingRedirectUri :=
                validateRedirectUri_error_ne_missing "undefined" metadata e (by decide) heq
              exact redirectError_message_ne_missing e he (by simpa using h)
            · split
              · simp [RedirectError.message]
              · simp

/-- Claim C1 (code bug, demonstration): authorization-code redemption at the
token endpoint is NOT single-use in the source.  The handler keeps no store
and compares the submitted code against the fixed literal: a run of any
number of identical redemption requests for the same code value succeeds
every time, instead of exactly once as the claim requires. -/
theorem token_code_redemption_repeats_success (n : Nat) :
    tokenRun (List.replicate n validRedemptionRequest)
      = List.replicate n (.issued dummyAccessToken "Bearer" 3600) := by
  unfold tokenRun
  rw [List.map_replicate]
  rfl

/-- Claim C2 (code bug, demonstration): the token handler consults no clock
and records no issuance timestamp — nothing in its input carries time — so
redemption of the fixed code succeeds unconditionally, in particular also
strictly more than 10 minutes after the code was delivered.  The claimed
`CodeExpired`/`invalid_grant` outcome cannot occur. -/
theorem token_redemption_never_expires :
    tokenEndpoint validRedemptionRequest = .issued dummyAccessToken "Bearer" 3600 := by rfl

/-- Claim C3 (code bug, demonstration): the authorize controller delivers an
authorization code to the redirect target with no credential check at all.
`AuthParams` mirrors every parameter the source handler destructures — there
is no username or password field — and a fully validated request is
immediately redirected with `code=cimd-demo-code` attached; no
credential-challenge step exists in the source. -/
theorem authorize_delivers_code_without_credentials :
    handleAuthorize demoApi demoFetch demoParams
      = (.redirectTo "http://localhost:4000/callback?code=cimd-demo-code&state=xyz", 1) := by rfl

/-- Claim C4 (code bug, demonstration): every successful token exchange
returns the one fixed access token string (with the fixed token_type and
expires_in), so two successful redemptions can never return distinct
access_token values as the claim requires. -/
theorem token_success_token_constant (p : TokenParams) (a t : String) (e : Nat)
    (h : tokenEndpoint p = .issued a t e) :
    a = dummyAccessToken ∧ t = "Bearer" ∧ e = 3600 := by
  unfold tokenEndpoint at h
  split at h
  · simp at h
  · split at h
    · simp at h
    · cases h
      exact ⟨rfl, rfl, rfl⟩

/-- Witness for `token_success_token_constant`: the hypothesis is satisfied
by the valid redemption request. -/
theorem token_success_token_constant_witness :
    dummyAccessToken = dummyAccessToken ∧ "Bearer" = "Bearer" ∧ (3600 : Nat) = 3600 :=
  token_success_token_constant validRedemptionRequest dummyAccessToken "Bearer" 3600 (by rfl)

/-- Claim C5: an authorize request whose `response_type` is present and not
"code" is rejected before any network access: the fetch capability is
invoked zero times, the outcome does not depend on the URL-parsing or fetch
capabilities at all, and the request never succeeds. -/
theorem non_code_response_type_rejected_without_fetch
    (api api2 : URLApi) (f f2 : String → FetchResult) (p : AuthParams)
    (hpresent : p.response_type ≠ none) (hne : p.response_type ≠ some "code") :
    (handleAuthorize api f p).2 = 0
    ∧ handleAuthorize api f p = handleAuthorize api2 f2 p
    ∧ isRedirect (handleAuthorize api f p).1 = false := by
  by_cases hc : paramTruthy p.client_id = true
  · rcases hrt : p.response_type with _ | s
    · exact absurd hrt hpresent
    · by_cases hs : s = ""
      · subst hs
        have hf : paramTruthy p.response_type = false := by rw [hrt]; rfl
        rw [handleAuthorize_no_response_type api f p hc hf,
            handleAuthorize_no_response_type api2 f2 p hc hf]
        exact ⟨rfl, rfl, rfl⟩
      · have hp : paramTruthy p.response_type = true := by
          rw [hrt]; simp [paramTruthy, bne_iff_ne, hs]
        rw [handleAuthorize_bad_response_type api f p hc hp hne,
            handleAuthorize_bad_response_type api2 f2 p hc hp hne]
        exact ⟨rfl, rfl, rfl⟩
  · have hcf : paramTruthy p.client_id = false := by simpa using hc
    rw [handleAuthorize_no_client_id api f p hcf, handleAuthorize_no_client_id api2 f2 p hcf]
    exact ⟨rfl, rfl, rfl⟩

/-- Witness for `non_code_response_type_rejected_without_fetch` at the
concrete implicit-flow request. -/
theorem non_code_response_type_rejected_without_fetch_witness :
    (handleAuthorize demoApi demoFetch implicitFlowParams).2 = 0
    ∧ isRedirect (handleAuthorize demoApi demoFetch implicitFlowParams).1 = false := by
  have h := non_code_response_type_rejected_without_fetch demoApi demoApi demoFetch demoFetch
      implicitFlowParams (by decide) (by decide)
  exact ⟨h.1, h.2.2⟩

/-- Claim C6 counterexample: for `response_type=token` the structured
failure's top-level `error` field is "invalid_request" — the string
"unsupported_response_type" only occurs inside `error_description` — so the
claimed top-level value "unsupported_response_type" is wrong. -/
theorem unsupported_response_type_counterexample :
    (handleAuthorize demoApi demoFetch implicitFlowParams).1
        = .errorResponse "invalid_request"
            "unsupported_response_type: only response_type=code is supported"
    ∧ "invalid_request" ≠ "unsupported_response_type" := ⟨by rfl, by decide⟩

/-- Claim C6 as amended: when an authorize request fails because
`response_type` is present (and truthy) but not "code", the failure object
has top-level `error` "invalid_request" and an `error_description` that
names the violated rule, beginning "unsupported_response_type:". -/
theorem unsupported_response_type_error_shape (api : URLApi) (f : String → FetchResult)
    (p : AuthParams) (hc : paramTruthy p.client_id = true)
    (hp : paramTruthy p.response_type = true) (hne : p.response_type ≠ some "code") :
    handleAuthorize api f p
      = (.errorResponse "invalid_request"
          "unsupported_response_type: only response_type=code is supported", 0) :=
  handleAuthorize_bad_response_type api f p hc hp hne

/-- Witness for `unsupported_response_type_error_shape` at the concrete
implicit-flow request. -/
theorem unsupported_response_type_error_shape_witness :
    handleAuthorize demoApi demoFetch implicitFlowParams
      = (.errorResponse "invalid_request"
          "unsupported_response_type: only response_type=code is supported", 0) :=
  unsupported_response_type_error_shape demoApi demoFetch implicitFlowParams
    (by decide) (by decide) (by decide)

theorem validateClientIdUrl_some (api : URLApi) (raw : String) (u : URLRecord)
    (hp : api.parse raw = some u) :
    validateClientIdUrl api raw =
      (if u.protocol != "https:" then .error .schemeNotHttps
       else if u.pathname == "" || u.pathname == "/" then .error .missingPath
       else if (jsSplit u.pathname '/').any (fun s => s == "." || s == "..") then
         .error .dotSegment
       else if u.hash != "" then .error .hasFragment
       else if u.username != "" || u.password != "" then .error .hasUserinfo
       else .ok (api.render u)) := by
  simp [validateClientIdUrl, hp]

/-- Claim C7: the client-identifier URL validator accepts exactly the
strings that parse (by the platform URL parser) to a record with scheme
`https`, a path that is neither empty nor "/", no "." or ".." segment when
split on "/", no fragment and no userinfo; each rule individually violated
yields its own failure reason, checked in the order MalformedURL,
SchemeNotHttps, MissingPath, DotSegment, HasFragment, HasUserinfo; and on
success the canonical string form `url.toString()` of the parsed URL is
returned. -/
theorem validateClientIdUrl_characterization (api : URLApi) (raw : String) :
    ((∃ s, validateClientIdUrl api raw = .ok s) ↔
      ∃ u, api.parse raw = some u ∧ u.protocol = "https:" ∧ u.pathname ≠ "" ∧ u.pathname ≠ "/"
        ∧ (jsSplit u.pathname '/').any (fun s => s == "." || s == "..") = false
        ∧ u.hash = "" ∧ u.username = "" ∧ u.password = "")
  ∧ (api.parse raw = none → validateClientIdUrl api raw = .error .malformedURL)
  ∧ (∀ u, api.parse raw = some u →
      ((u.protocol ≠ "https:" → validateClientIdUrl api raw = .error .schemeNotHttps)
      ∧ (u.protocol = "https:" → (u.pathname = "" ∨ u.pathname = "/") →
          validateClientIdUrl api raw = .error .missingPath)
      ∧ (u.protocol = "https:" → u.pathname ≠ "" → u.pathname ≠ "/" →
          (jsSplit u.pathname '/').any (fun s => s == "." || s == "..") = true →
          validateClientIdUrl api raw = .error .dotSegment)
      ∧ (u.protocol = "https:" → u.pathname ≠ "" → u.pathname ≠ "/" →
          (jsSplit u.pathname '/').any (fun s => s == "." || s == "..") = false →
          u.hash ≠ "" → validateClientIdUrl api raw = .error .hasFragment)
      ∧ (u.protocol = "https:" → u.pathname ≠ "" → u.pathname ≠ "/" →
          (jsSplit u.pathname '/').any (fun s => s == "." || s == "..") = false →
          u.hash = "" → (u.username ≠ "" ∨ u.password ≠ "") →
          validateClientIdUrl api raw = .error .hasUserinfo)
      ∧ (u.protocol = "https:" → u.pathname ≠ "" → u.pathname ≠ "/" →
          (jsSplit u.pathname '/').any (fun s => s == "." || s == "..") = false →
          u.hash = "" → u.username = "" → u.password = "" →
          validateClientIdUrl api raw = .ok (api.render u)))) := by
  refine ⟨?_, ?_, ?_⟩
  · constructor
    · rintro ⟨s, hs⟩
      cases hp : api.parse raw with
      | none => simp [validateClientIdUrl, hp] at hs
      | some u =>
        rw [validateClientIdUrl_some api raw u hp] at hs
        split_ifs at hs with h1 h2 h3 h4 h5
        refine ⟨u, rfl, ?_, ?_, ?_, ?_, ?_, ?_, ?_⟩
        · simpa [bne_iff_ne] using h1
        · intro h; exact h2 (by simp [h])
        · intro h; exact h2 (by simp [h])
        · simpa using h3
        · simpa [bne_iff_ne] using h4
        · have := h5; simp [bne_iff_ne] at this; exact this.1
        · have := h5; simp [bne_iff_ne] at this; exact this.2
    · rintro ⟨u, hu, h1, h2, h3, h4, h5, h6, h7⟩
      refine ⟨api.render u, ?_⟩
      rw [validateClientIdUrl_some api raw u hu]
      simp [h1, h2, h3, h4, h5, h6, h7, bne_iff_ne]
  · intro hp
    simp [validateClientIdUrl, hp]
  · intro u hu
    refine ⟨?_, ?_, ?_, ?_, ?_, ?_⟩
    · intro h1
      rw [validateClientIdUrl_some api raw u hu]
      simp [bne_iff_ne, h1]
    · intro h1 h2
      rw [validateClientIdUrl_some api raw u hu]
      rcases h2 with h2 | h2 <;> simp [h1, h2, bne_iff_ne]
    · intro h1 h2 h3 h4
      rw [validateClientIdUrl_some api raw u hu]
      simp [h1, h2, h3, h4, bne_iff_ne]
    · intro h1 h2 h3 h4 h5
      rw [validateClientIdUrl_some api raw u hu]
      simp [h1, h2, h3, h4, h5, bne_iff_ne]
    · intro h1 h2 h3 h4 h5 h6
      rw [validateClientIdUrl_some api raw u hu]
      rcases h6 with h6 | h6 <;> simp [h1, h2, h3, h4, h5, h6, bne_iff_ne]
    · intro h1 h2 h3 h4 h5 h6 h7
      rw [validateClientIdUrl_some api raw u hu]
      simp [h1, h2, h3, h4, h5, h6, h7, bne_iff_ne]

/-- Witness for `validateClientIdUrl_characterization`: the demo client-id
URL is accepted and returned in canonical form. -/
theorem validateClientIdUrl_characterization_witness :
    validateClientIdUrl demoApi "https://ex.test/md.json" = .ok "https://ex.test/md.json" := by
  have h := (validateClientIdUrl_characterization demoApi "https://ex.test/md.json").2.2
      mdUrlRecord (by rfl)
  exact h.2.2.2.2.2 rfl (by decide) (by decide) (by rfl) rfl rfl rfl

/-- Claim C8: for a metadata document that is a JSON object, field-level
validation short-circuits in the fixed order MissingClientId,
ClientIdMismatch, ForbiddenAuthMethod, SecretPresent, SecretExpiryPresent;
a present `client_id` not strictly equal to the fetch URL yields
ClientIdMismatch regardless of every other field; and a forbidden
`token_endpoint_auth_method` makes the authorize request fail with the
ForbiddenAuthMethod error before the redirect-uri check runs — the outcome
is the same for every `redirect_uri` value. -/
theorem metadata_validation_order (url : String) (fields : List (String × JSValue)) :
    (getProp fields "client_id" = none →
      fetchAndValidateClientMetadata url (.ok (.jobj fields)) = .error .missingClientId)
  ∧ (∀ cid, getProp fields "client_id" = some cid → jsStrictEqStr cid url = false →
      fetchAndValidateClientMetadata url (.ok (.jobj fields)) = .error .clientIdMismatch)
  ∧ (∀ cid m, getProp fields "client_id" = some cid → jsStrictEqStr cid url = true →
      getProp fields "token_endpoint_auth_method" = some m → jsTruthy m = true →
      (isForbiddenAuthMethod m || strHasPre "client_secret_" (jsToString m)) = true →
      fetchAndValidateClientMetadata url (.ok (.jobj fields)) = .error .forbiddenAuthMethod)
  ∧ (∀ cid, getProp fields "client_id" = some cid → jsStrictEqStr cid url = true →
      forbiddenAuthCheck fields = false →
      (getProp fields "client_secret").isSome = true →
      fetchAndValidateClientMetadata url (.ok (.jobj fields)) = .error .secretPresent)
  ∧ (∀ cid, getProp fields "client_id" = some cid → jsStrictEqStr cid url = true →
      forbiddenAuthCheck fields = false →
      (getProp fields "client_secret").isSome = false →
      (getProp fields "client_secret_expires_at").isSome = true →
      fetchAndValidateClientMetadata url (.ok (.jobj fields)) = .error .secretExpiryPresent)
  ∧ (∀ (api : URLApi) (f : String → FetchResult) (p : AuthParams) (cid m : JSValue)
        (r : Option String),
      paramTruthy p.client_id = true → p.response_type = some "code" →
      validateClientIdUrl api (jsParamString p.client_id) = .ok url →
      f url = .ok (.jobj fields) →
      getProp fields "client_id" = some cid → jsStrictEqStr cid url = true →
      getProp fields "token_endpoint_auth_method" = some m → jsTruthy m = true →
      (isForbiddenAuthMethod m || strHasPre "client_secret_" (jsToString m)) = true →
      handleAuthorize api f p
        = (.errorResponse "invalid_request" MetadataError.forbiddenAuthMethod.message, 1)
      ∧ handleAuthorize api f p = handleAuthorize api f { p with redirect_uri := r }) := by
  refine ⟨?_, ?_, ?_, ?_, ?_, ?_⟩
  · intro h
    simp [fetchAndValidateClientMetadata, h]
  · intro cid h1 h2
    simp [fetchAndValidateClientMetadata, h1, h2]
  · intro cid m h1 h2 hm ht hforb
    simp [fetchAndValidateClientMetadata, forbiddenAuthCheck, h1, h2, hm, ht, hforb]
  · intro cid h1 h2 hc2 hs
    simp [fetchAndValidateClientMetadata, h1, h2, hc2, hs]
  · intro cid h1 h2 hc2 hs1 hs2
    simp [fetchAndValidateClientMetadata, h1, h2, hc2, hs1, hs2]
  · intro api f p cid m r hc hrt hv hf h1 h2 hm ht hforb
    have hmErr : fetchAndValidateClientMetadata url (f url) = .error .forbiddenAuthMethod := by
      rw [hf]
      simp [fetchAndValidateClientMetadata, forbiddenAuthCheck, h1, h2, hm, ht, hforb]
    have hres := handleAuthorize_metadata_error api f p url .forbiddenAuthMethod hc hrt hv hmErr
    have hres2 := handleAuthorize_metadata_error api f { p with redirect_uri := r } url
      .forbiddenAuthMethod hc hrt hv hmErr
    exact ⟨hres, hres.trans hres2.symm⟩

/-- Witness for `metadata_validation_order`: the demo request against
metadata declaring `token_endpoint_auth_method` "client_secret_basic" is
rejected with the ForbiddenAuthMethod message. -/
theorem metadata_validation_order_witness :
    handleAuthorize demoApi forbiddenMethodFetch demoParams
      = (.errorResponse "invalid_request"
          "invalid_client: token_endpoint_auth_method MUST NOT be a shared secret based method",
         1) := by
  have h := (metadata_validation_order "https://ex.test/md.json"
      [("client_id", JSValue.jstr "https://ex.test/md.json"),
       ("redirect_uris", JSValue.jarr [JSValue.jstr "http://localhost:4000/callback"]),
       ("token_endpoint_auth_method", JSValue.jstr "client_secret_basic")]).2.2.2.2.2
      demoApi forbiddenMethodFetch demoParams
      (JSValue.jstr "https://ex.test/md.json") (JSValue.jstr "client_secret_basic") none
      (by rfl) (by rfl) (by rfl) (by rfl) (by rfl) (by rfl) (by rfl) (by rfl) (by rfl)
  exact h.1

/-- Claim C9: redirect-URI matching succeeds exactly when the requested
string is byte-for-byte equal to some entry of `redirect_uris` — the
comparison is plain string equality, so it is case-sensitive with no
normalization and no trailing-slash tolerance (the concrete clause shows
"http://a.test/cb" failing against a registered "http://a.test/cb/"); an
empty requested value fails with MissingRedirectUri, and a missing,
non-array or empty `redirect_uris` fails with MissingRegisteredUris. -/
theorem redirect_uri_exact_match (requested : String) (fields : List (String × JSValue))
    (entries : List JSValue) :
    ((requested = "" → validateRedirectUri requested (.jobj fields) = .error .missingRedirectUri)
  ∧ (requested ≠ "" → getProp fields "redirect_uris" = none →
      validateRedirectUri requested (.jobj fields) = .error .missingRegisteredUris)
  ∧ (requested ≠ "" → ∀ v, getProp fields "redirect_uris" = some v → (∀ es, v ≠ .jarr es) →
      validateRedirectUri requested (.jobj fields) = .error .missingRegisteredUris)
  ∧ (requested ≠ "" → getProp fields "redirect_uris" = some (.jarr []) →
      validateRedirectUri requested (.jobj fields) = .error .missingRegisteredUris)
  ∧ (requested ≠ "" → getProp fields "redirect_uris" = some (.jarr entries) → entries ≠ [] →
      (validateRedirectUri requested (.jobj fields) = .ok () ↔ JSValue.jstr requested ∈ entries))
  ∧ (requested ≠ "" → getProp fields "redirect_uris" = some (.jarr entries) → entries ≠ [] →
      JSValue.jstr requested ∉ entries →
      validateRedirectUri requested (.jobj fields) = .error .noExactMatch))
  ∧ validateRedirectUri "http://a.test/cb"
      (.jobj [("redirect_uris", .jarr [.jstr "http://a.test/cb/"])]) = .error .noExactMatch := by
  refine ⟨⟨?_, ?_, ?_, ?_, ?_, ?_⟩, by rfl⟩
  · intro h
    subst h
    exact validateRedirectUri_empty _
  · intro hne hu
    rw [validateRedirectUri_nonempty _ _ hne]
    simp [hu]
  · intro hne v hu hnar
    rcases v with _ | b | n | s | es | fs
    case jarr => exact absurd rfl (hnar es)
    all_goals rw [validateRedirectUri_nonempty _ _ hne]
    all_goals simp [hu]
  · intro hne hu
    rw [validateRedirectUri_nonempty _ _ hne]
    simp [hu]
  · intro hne hu hnz
    rw [validateRedirectUri_nonempty _ _ hne]
    by_cases hmem : JSValue.jstr requested ∈ entries
    · have hany : entries.any (fun u => jsStrictEqStr u requested) = true :=
        (any_strictEq_iff _ _).mpr hmem
      simp [hu, hnz, hany, hmem]
    · have hany : entries.any (fun u => jsStrictEqStr u requested) = false := by
        rw [Bool.eq_false_iff]
        intro hc
        exact hmem ((any_strictEq_iff _ _).mp hc)
      simp [hu, hnz, hany, hmem]
  · intro hne hu hnz hmem
    rw [validateRedirectUri_nonempty _ _ hne]
    have hany : entries.any (fun u => jsStrictEqStr u requested) = false := by
      rw [Bool.eq_false_iff]
      intro hc
      exact hmem ((any_strictEq_iff _ _).mp hc)
    simp [hu, hnz, hany]

/-- Witness for `redirect_uri_exact_match`: the demo callback URL matches
the demo metadata exactly. -/
theorem redirect_uri_exact_match_witness :
    validateRedirectUri "http://localhost:4000/callback" demoMetadata = .ok () := by
  have h := (redirect_uri_exact_match "http://localhost:4000/callback"
      [("client_id", JSValue.jstr "https://ex.test/md.json"),
       ("redirect_uris", JSValue.jarr [JSValue.jstr "http://localhost:4000/callback"])]
      [JSValue.jstr "http://localhost:4000/callback"]).1.2.2.2.2.1
      (by decide) (by rfl) (by simp)
  exact h.mpr (by simp)

/-- Claim C10 counterexample: with the literal string "undefined" listed in
`redirect_uris` and `redirect_uri` omitted, the request is NOT accepted —
the matcher passes, but constructing the redirect URL from the stringified
value "undefined" throws, so the request is rejected with
`invalid_request`, never redirected. -/
theorem omitted_redirect_uri_counterexample :
    (handleAuthorize demoApi undefinedListedFetch omittedRedirectParams).1
        = .errorResponse "invalid_request" "Invalid URL"
    ∧ isRedirect (handleAuthorize demoApi undefinedListedFetch omittedRedirectParams).1 = false :=
  ⟨by rfl, by rfl⟩

/-- Claim C10 as amended: an authorize request omitting `redirect_uri` is
never rejected with the missing-redirect-uri reason, because the controller
stringifies the absent value to the non-empty literal "undefined"; when
"undefined" is not registered it fails with the no-exact-match reason; and
when the literal string "undefined" is registered the matcher accepts it,
but the request is still rejected (with `invalid_request`, from the failed
redirect-URL construction), not redirected. -/
theorem omitted_redirect_uri_behavior :
    (∀ (api : URLApi) (f : String → FetchResult) (p : AuthParams), p.redirect_uri = none →
      (handleAuthorize api f p).1
        ≠ .errorResponse "invalid_request" RedirectError.missingRedirectUri.message)
  ∧ (∀ (api : URLApi) (f : String → FetchResult) (p : AuthParams) (url : String)
        (fields : List (String × JSValue)) (entries : List JSValue),
      p.redirect_uri = none →
      paramTruthy p.client_id = true → p.response_type = some "code" →
      validateClientIdUrl api (jsParamString p.client_id) = .ok url →
      fetchAndValidateClientMetadata url (f url) = .ok (.jobj fields) →
      getProp fields "redirect_uris" = some (.jarr entries) → entries ≠ [] →
      JSValue.jstr "undefined" ∉ entries →
      handleAuthorize api f p
        = (.errorResponse "invalid_request" RedirectError.noExactMatch.message, 1))
  ∧ (∀ (fields : List (String × JSValue)) (entries : List JSValue),
      getProp fields "redirect_uris" = some (.jarr entries) →
      JSValue.jstr "undefined" ∈ entries →
      validateRedirectUri "undefined" (.jobj fields) = .ok ())
  ∧ (∀ (api : URLApi) (f : String → FetchResult) (p : AuthParams) (url : String)
        (fields : List (String × JSValue)) (entries : List JSValue),
      p.redirect_uri = none →
      paramTruthy p.client_id = true → p.response_type = some "code" →
      validateClientIdUrl api (jsParamString p.client_id) = .ok url →
      fetchAndValidateClientMetadata url (f url) = .ok (.jobj fields) →
      getProp fields "redirect_uris" = some (.jarr entries) →
      JSValue.jstr "undefined" ∈ entries →
      api.parse "undefined" = none →
      handleAuthorize api f p = (.errorResponse "invalid_request" "Invalid URL", 1)) := by
  refine ⟨?_, ?_, ?_, ?_⟩
  · exact handleAuthorize_omitted_redirect_desc
  · intro api f p url fields entries hru hc hrt hv hm hu hnz hmem
    have hx : jsParamString p.redirect_uri = "undefined" := by rw [hru]; rfl
    have hany : entries.any (fun u => jsStrictEqStr u "undefined") = false := by
      rw [Bool.eq_false_iff]
      intro hcon
      exact hmem ((any_strictEq_iff _ _).mp hcon)
    have hvr : validateRedirectUri "undefined" (.jobj fields) = .error .noExactMatch := by
      rw [validateRedirectUri_nonempty _ _ (by decide)]
      simp [hu, hnz, hany]
    exact handleAuthorize_redirect_error api f p url (.jobj fields) .noExactMatch hc hrt hv hm
      (by rw [hx]; exact hvr)
  · intro fields entries hu hmem
    have hany : entries.any (fun u => jsStrictEqStr u "undefined") = true :=
      (any_strictEq_iff _ _).mpr hmem
    rw [validateRedirectUri_nonempty _ _ (by decide)]
    simp [hu, List.ne_nil_of_mem hmem, hany]
  · intro api f p url fields entries hru hc hrt hv hm hu hmem hparse
    have hx : jsParamString p.redirect_uri = "undefined" := by rw [hru]; rfl
    have hany : entries.any (fun u => jsStrictEqStr u "undefined") = true :=
      (any_strictEq_iff _ _).mpr hmem
    have hvr : validateRedirectUri "undefined" (.jobj fields) = .ok () := by
      rw [validateRedirectUri_nonempty _ _ (by decide)]
      simp [hu, List.ne_nil_of_mem hmem, hany]
    exact handleAuthorize_redirect_ok_parse_none api f p url (.jobj fields) hc hrt hv hm
      (by rw [hx]; exact hvr) (by rw [hx]; exact hparse)

/-- Witness for `omitted_redirect_uri_behavior` at concrete requests:
omitting `redirect_uri` against the demo metadata yields the no-exact-match
reason (never the missing-redirect-uri reason), and against metadata
registering "undefined" the request still ends in an error. -/
theorem omitted_redirect_uri_behavior_witness :
    (handleAuthorize demoApi demoFetch omittedRedirectParams).1
        ≠ .errorResponse "invalid_request" "invalid_request: redirect_uri is required"
    ∧ handleAuthorize demoApi demoFetch omittedRedirectParams
        = (.errorResponse "invalid_request"
            "invalid_request: redirect_uri MUST exactly match one of the registered redirect_uris",
           1)
    ∧ handleAuthorize demoApi undefinedListedFetch omittedRedirectParams
        = (.errorResponse "invalid_request" "Invalid URL", 1) := by
  refine ⟨?_, ?_, ?_⟩
  · exact omitted_redirect_uri_behavior.1 demoApi demoFetch omittedRedirectParams rfl
  · exact omitted_redirect_uri_behavior.2.1 demoApi demoFetch omittedRedirectParams
      "https://ex.test/md.json"
      [("client_id", JSValue.jstr "https://ex.test/md.json"),
       ("redirect_uris", JSValue.jarr [JSValue.jstr "http://localhost:4000/callback"])]
      [JSValue.jstr "http://localhost:4000/callback"]
      rfl (by rfl) rfl (by rfl) (by rfl) (by rfl) (by simp) (by simp)
  · exact omitted_redirect_uri_behavior.2.2.2 demoApi undefinedListedFetch omittedRedirectParams
      "https://ex.test/md.json"
      [("client_id", JSValue.jstr "https://ex.test/md.json"),
       ("redirect_uris", JSValue.jarr [JSValue.jstr "undefined"])]
      [JSValue.jstr "undefined"]
      rfl (by rfl) rfl (by rfl) (by rfl) (by rfl) (by simp) (by rfl)
